import Mathlib

/-!
Shallow embedding of `crates/cli/src/util/target.rs`: the supported-target
registry, the target-triple parser (`TargetDetail`), the GitHub workflow
configuration table, the target resolver (`Target::new`), and the
field-level serializers (`Serialize` impls for `NodeArch` and the `setup`
field of `GithubWorkflowConfig`).

Rust panics are modelled as `Except` errors carrying the panic kind: the
out-of-bounds slice index `parts[2]` and the explicit
`unsupported cpu arch` panic in `TargetDetail::from`, and the `unwrap` of
the config-table lookup in `Target::new`.
-/

/-- The constant slice `AVAILABLE_TARGETS` from target.rs, in source order. -/
def AVAILABLE_TARGETS : List String :=
  [ "aarch64-apple-darwin"
  , "aarch64-linux-android"
  , "aarch64-unknown-linux-gnu"
  , "aarch64-unknown-linux-musl"
  , "aarch64-pc-windows-msvc"
  , "x86_64-apple-darwin"
  , "x86_64-pc-windows-msvc"
  , "x86_64-unknown-linux-gnu"
  , "x86_64-unknown-linux-musl"
  , "x86_64-unknown-freebsd"
  , "i686-pc-windows-msvc"
  , "armv7-unknown-linux-gnueabihf"
  , "armv7-linux-androideabi" ]

/-- The constant slice `DEFAULT_TARGETS` from target.rs, in source order. -/
def DEFAULT_TARGETS : List String :=
  [ "x86_64-apple-darwin"
  , "x86_64-pc-windows-msvc"
  , "x86_64-unknown-linux-gnu" ]

/-- The enum `NodeArch` from target.rs. -/
inductive NodeArch
  | x32
  | x64
  | ia32
  | arm
  | arm64
  | mips
  | mipsel
  | ppc
  | ppc64
  | s390
  | s390x
deriving DecidableEq

/-- `NodeArch::from_str`: a Rust `match` on string literals is a chain of
equality tests in source order, falling through to `None`. -/
def NodeArch.fromStr (s : String) : Option NodeArch :=
  if s = "x32" then some NodeArch.x32
  else if s = "x86_64" then some NodeArch.x64
  else if s = "i686" then some NodeArch.ia32
  else if s = "armv7" then some NodeArch.arm
  else if s = "aarch64" then some NodeArch.arm64
  else if s = "mips" then some NodeArch.mips
  else if s = "mipsel" then some NodeArch.mipsel
  else if s = "ppc" then some NodeArch.ppc
  else if s = "ppc64" then some NodeArch.ppc64
  else if s = "s390" then some NodeArch.s390
  else if s = "s390x" then some NodeArch.s390x
  else none

/-- The `Display` impl for `NodeArch` (the string written by `write!`). -/
def NodeArch.display : NodeArch → String
  | NodeArch.x32 => "x86"
  | NodeArch.x64 => "x64"
  | NodeArch.ia32 => "ia32"
  | NodeArch.arm => "arm"
  | NodeArch.arm64 => "arm64"
  | NodeArch.mips => "mips"
  | NodeArch.mipsel => "mipsel"
  | NodeArch.ppc => "ppc"
  | NodeArch.ppc64 => "ppc64"
  | NodeArch.s390 => "s390"
  | NodeArch.s390x => "s390x"

/-- `NodeArch::as_github_action_arch`: only `x32` and `x64` are
distinguished, every other variant falls into the `_ => "x64"` arm. -/
def NodeArch.as_github_action_arch : NodeArch → String
  | NodeArch.x32 => "x86"
  | NodeArch.x64 => "x64"
  | _ => "x64"

/-- The `Serialize` impl for `NodeArch`: it emits the string produced by
`as_github_action_arch` (not the `Display` string). -/
def NodeArch.serialized (a : NodeArch) : String :=
  a.as_github_action_arch

/-- The enum `NodePlatform` from target.rs; `unknown` carries the
unrecognized OS substring verbatim. -/
inductive NodePlatform
  | darwin
  | freebsd
  | openbsd
  | win32
  | unknown (s : String)
deriving DecidableEq

/-- `NodePlatform::from_str`: total, with fallback to `unknown(s)`. -/
def NodePlatform.fromStr (s : String) : NodePlatform :=
  if s = "darwin" then NodePlatform.darwin
  else if s = "freebsd" then NodePlatform.freebsd
  else if s = "openbsd" then NodePlatform.openbsd
  else if s = "windows" then NodePlatform.win32
  else NodePlatform.unknown s

/-- The `Display` impl for `NodePlatform` (also what its `Serialize` impl
emits, via `format!`). -/
def NodePlatform.display : NodePlatform → String
  | NodePlatform.darwin => "darwin"
  | NodePlatform.freebsd => "freebsd"
  | NodePlatform.openbsd => "openbsd"
  | NodePlatform.win32 => "win32"
  | NodePlatform.unknown s => s

/-- Accumulator for `splitChar`: Rust `str::split('-')` semantics over the
character list of a string. -/
def splitCharAux (c : Char) : List Char → List Char → List (List Char)
  | [], acc => [acc.reverse]
  | x :: xs, acc =>
    if x = c then acc.reverse :: splitCharAux c xs []
    else splitCharAux c xs (x :: acc)

/-- Rust `triple.split('-').collect::<Vec<_>>()`: split on every occurrence
of `c`, keeping empty segments, always returning a nonempty list. -/
def splitChar (c : Char) (s : String) : List String :=
  (splitCharAux c s.data []).map String.mk

/-- Accumulator for `splitAmpAmp`: Rust `str::split("&&")` semantics,
leftmost non-overlapping matches of the two-character separator. -/
def splitAmpAux : List Char → List Char → List (List Char)
  | [], acc => [acc.reverse]
  | '&' :: '&' :: rest, acc => acc.reverse :: splitAmpAux rest []
  | x :: rest, acc => splitAmpAux rest (x :: acc)

/-- Rust `setup.split("&&")` as used by the `GithubWorkflowConfig`
serializer. -/
def splitAmpAmp (s : String) : List String :=
  (splitAmpAux s.data []).map String.mk

/-- Rust `str::trim`: strip leading and trailing whitespace. (Rust trims
Unicode `White_Space`; all strings stored in this module are ASCII, where
this agrees with `Char.isWhitespace`.) -/
def rustTrim (s : String) : String :=
  String.mk (((s.data.dropWhile Char.isWhitespace).reverse.dropWhile
    Char.isWhitespace).reverse)

/-- The struct `TargetDetail` from target.rs. -/
structure TargetDetail where
  platform_abi : String
  arch : NodeArch
  platform : NodePlatform
  abi : Option String
deriving DecidableEq

/-- The two panic sites reachable from `TargetDetail::from`: the slice
index `parts[2]` when fewer than three dash-separated fields exist, and the
explicit panic on an unrecognized cpu architecture. -/
inductive ParseError
  | indexOutOfBounds (index len : Nat)
  | unsupportedCpuArch (cpu : String)
deriving DecidableEq

/-- The panic message attached to each `ParseError` (the `unsupportedCpuArch`
text is the `format!` string of the source's panic call). -/
def ParseError.message : ParseError → String
  | ParseError.indexOutOfBounds i len =>
      "index out of bounds: the len is " ++ toString len ++
        " but the index is " ++ toString i
  | ParseError.unsupportedCpuArch cpu => "unsupported cpu arch " ++ cpu

/-- Body of `TargetDetail::from` after the `(cpu, sys, abi)` tuple is
formed: map the OS, map (or reject) the cpu, and assemble `platform_abi`
with the `Display` strings. -/
def mkTargetDetail (cpu sys : String) (abi : Option String) :
    Except ParseError TargetDetail :=
  let platform := NodePlatform.fromStr sys
  match NodeArch.fromStr cpu with
  | none => Except.error (ParseError.unsupportedCpuArch cpu)
  | some arch =>
    Except.ok
      { platform_abi :=
          match abi with
          | some a => platform.display ++ "-" ++ arch.display ++ "-" ++ a
          | none => platform.display ++ "-" ++ arch.display
        arch := arch
        platform := platform
        abi := abi }

/-- `impl From<&str> for TargetDetail`. Both branches of the source's
`if parts.len() == 2` read `parts[2]`, so any input with fewer than three
dash-separated fields panics on that index before arch or OS mapping; with
three or more fields, `cpu` is field 0 (`splitChar` never returns an empty
list, so index 0 always exists), `sys` is field 2, and `abi` is the
optional field 3 (`parts.get(3)`; `None` in the two-field branch, which is
unreachable past the index panic). -/
def TargetDetail.fromTriple (triple : String) : Except ParseError TargetDetail :=
  match (splitChar '-' triple)[2]? with
  | none =>
    Except.error (ParseError.indexOutOfBounds 2 (splitChar '-' triple).length)
  | some sys =>
    mkTargetDetail (((splitChar '-' triple)[0]?).getD "") sys
      (splitChar '-' triple)[3]?

/-- The struct `GithubWorkflowConfig` from target.rs. -/
structure GithubWorkflowConfig where
  host : String
  docker_image : Option String
  setup : Option String
deriving DecidableEq

/-- The `setup` entry written by the `Serialize` impl for
`GithubWorkflowConfig`: when present, the stored string split on `"&&"`
with every piece trimmed; absent otherwise. -/
def GithubWorkflowConfig.serializedSetup (c : GithubWorkflowConfig) :
    Option (List String) :=
  c.setup.map (fun s => (splitAmpAmp s).map rustTrim)

/-- The static `phf_map!` `TARGET_CONFIG_MAP` from target.rs, in source
order, as an association list. -/
def TARGET_CONFIG_MAP : List (String × GithubWorkflowConfig) :=
  [ ("x86_64-apple-darwin",
      { host := "macos-latest", docker_image := none, setup := none })
  , ("x86_64-pc-windows-msvc",
      { host := "windows-latest", docker_image := none, setup := none })
  , ("i686-pc-windows-msvc",
      { host := "windows-latest", docker_image := none, setup := none })
  , ("x86_64-unknown-linux-gnu",
      { host := "ubuntu-latest",
        docker_image := some "napi-rs/nodejs-rust:lts-debian",
        setup := none })
  , ("x86_64-unknown-linux-musl",
      { host := "ubuntu-latest",
        docker_image := some "napi-rs/nodejs-rust:lts-alpine",
        setup := none })
  , ("x86_64-unknown-freebsd",
      { host := "ubuntu-latest", docker_image := none, setup := none })
  , ("aarch64-apple-darwin",
      { host := "macos-latest", docker_image := none, setup := none })
  , ("aarch64-unknown-linux-gnu",
      { host := "ubuntu-latest", docker_image := none,
        setup := some "sudo apt-get update && sudo apt-get install g++-aarch64-linux-gnu gcc-aarch64-linux-gnu -y" })
  , ("aarch64-unknown-linux-musl",
      { host := "ubuntu-latest",
        docker_image := some "napi-rs/nodejs-rust:lts-alpine",
        setup := none })
  , ("aarch64-pc-windows-msvc",
      { host := "windows-latest", docker_image := none, setup := none })
  , ("aarch64-linux-android",
      { host := "ubuntu-latest", docker_image := none, setup := none })
  , ("armv7-unknown-linux-gnueabihf",
      { host := "ubuntu-latest", docker_image := none,
        setup := some "sudo apt-get update && sudo apt-get install gcc-arm-linux-gnueabihf g++-arm-linux-gnueabihf -y" })
  , ("armv7-linux-androideabi",
      { host := "ubuntu-latest", docker_image := none, setup := none }) ]

/-- `TARGET_CONFIG_MAP.get(triple)`: a phf map lookup is an exact string
match. -/
def targetConfigGet (triple : String) : Option GithubWorkflowConfig :=
  (TARGET_CONFIG_MAP.find? (fun p => p.1 == triple)).map (fun p => p.2)

/-- The two fatal paths of `Target::new`: a parse panic inside
`TargetDetail::from`, or the `unwrap` of a missing config-table entry. -/
inductive ResolveError
  | parse (e : ParseError)
  | missingConfig
deriving DecidableEq

/-- The struct `Target` from target.rs. -/
structure Target where
  triple : String
  detail : TargetDetail
  github_workflow_config : GithubWorkflowConfig
deriving DecidableEq

/-- `Target::new`: parse the triple first (its panics happen before the
map lookup), then `unwrap` the config-table entry. -/
def Target.new (triple : String) : Except ResolveError Target :=
  match TargetDetail.fromTriple triple with
  | Except.error e => Except.error (ResolveError.parse e)
  | Except.ok detail =>
    match targetConfigGet triple with
    | none => Except.error ResolveError.missingConfig
    | some config =>
      Except.ok
        { triple := triple
          detail := detail
          github_workflow_config := config }

/-- `splitChar` never returns the empty list (mirrors Rust: `split` always
yields at least one segment), so field 0 always exists. -/
theorem splitCharAux_ne_nil (c : Char) (l acc : List Char) :
    splitCharAux c l acc ≠ [] := by
  induction l generalizing acc with
  | nil => simp [splitCharAux]
  | cons x xs ih =>
    simp only [splitCharAux]
    by_cases h : x = c
    · simp [h]
    · simpa [h] using ih (x :: acc)

/-- `splitChar` itself is never empty, so the `getD ""` read of field 0 in
`TargetDetail.fromTriple` never takes its default. -/
theorem splitChar_ne_nil (c : Char) (s : String) : splitChar c s ≠ [] := by
  simp [splitChar, splitCharAux_ne_nil]

/-- C1 (counterexample): serializing the `TargetDetail` resolved from
"i686-pc-windows-msvc" yields the arch field as "x64", not "ia32" — the
`Serialize` impl for `NodeArch` goes through `as_github_action_arch`, whose
catch-all arm folds `ia32` to "x64". -/
theorem c1_serialized_arch_counterexample :
    (TargetDetail.fromTriple "i686-pc-windows-msvc").toOption.map
        (fun d => d.arch.serialized) = some "x64" ∧
    ("x64" : String) ≠ "ia32" :=
  ⟨rfl, by decide⟩

/-- C1 (amended): the `TargetDetail` resolved from "i686-pc-windows-msvc"
has arch variant `ia32`, whose `Display` string is "ia32" (not the raw
"i686"), but its serialized arch field is the string "x64", because the
`Serialize` impl uses `as_github_action_arch`, which folds every variant
other than `x32` to "x64". -/
theorem c1_serialized_arch_amended :
    (TargetDetail.fromTriple "i686-pc-windows-msvc").toOption.map
        (fun d => d.arch) = some NodeArch.ia32 ∧
    NodeArch.ia32.display = "ia32" ∧
    (TargetDetail.fromTriple "i686-pc-windows-msvc").toOption.map
        (fun d => d.arch.serialized) = some "x64" :=
  ⟨rfl, rfl, rfl⟩

/-- C2: every triple in `AVAILABLE_TARGETS` resolves — `Target.new`
succeeds (no panic path) and the returned record's `triple` field equals
the input string. -/
theorem c2_available_targets_resolve :
    ∀ t ∈ AVAILABLE_TARGETS,
      (Target.new t).toOption.map Target.triple = some t := by
  decide

/-- C2 witness at a concrete supported triple. -/
theorem c2_available_targets_resolve_witness :
    (Target.new "aarch64-apple-darwin").toOption.map Target.triple =
      some "aarch64-apple-darwin" :=
  c2_available_targets_resolve "aarch64-apple-darwin" (by decide)

/-- C3: every triple in `AVAILABLE_TARGETS` has an entry in
`TARGET_CONFIG_MAP` (exhaustiveness of the workflow config table). -/
theorem c3_config_map_exhaustive :
    ∀ t ∈ AVAILABLE_TARGETS, (targetConfigGet t).isSome = true := by
  decide

/-- C3 witness at a concrete supported triple. -/
theorem c3_config_map_exhaustive_witness :
    (targetConfigGet "x86_64-unknown-freebsd").isSome = true :=
  c3_config_map_exhaustive "x86_64-unknown-freebsd" (by decide)

/-- C4: the three concrete parses from the spec — "x86_64-apple-darwin",
"aarch64-unknown-linux-musl" and "armv7-unknown-linux-gnueabihf" yield
exactly the stated arch, platform, abi and platform_abi. -/
theorem c4_concrete_parses :
    TargetDetail.fromTriple "x86_64-apple-darwin" =
      Except.ok { platform_abi := "darwin-x64", arch := NodeArch.x64,
                  platform := NodePlatform.darwin, abi := none } ∧
    TargetDetail.fromTriple "aarch64-unknown-linux-musl" =
      Except.ok { platform_abi := "linux-arm64-musl", arch := NodeArch.arm64,
                  platform := NodePlatform.unknown "linux",
                  abi := some "musl" } ∧
    TargetDetail.fromTriple "armv7-unknown-linux-gnueabihf" =
      Except.ok { platform_abi := "linux-arm-gnueabihf", arch := NodeArch.arm,
                  platform := NodePlatform.unknown "linux",
                  abi := some "gnueabihf" } :=
  ⟨rfl, rfl, rfl⟩

/-- C5: for every triple (a string with at least three dash-separated
fields, per the glossary's well-formed triple shape) whose 0th field is not
a recognized architecture name, `TargetDetail.fromTriple` aborts with the
`unsupported cpu arch` panic carrying the offending substring, whose
message names that substring; in particular no `TargetDetail` is produced
(no silent substitution of a different architecture). -/
theorem c5_unrecognized_arch_fatal (triple : String)
    (hlen : 3 ≤ (splitChar '-' triple).length)
    (hcpu : NodeArch.fromStr (((splitChar '-' triple)[0]?).getD "") = none) :
    TargetDetail.fromTriple triple =
      Except.error (ParseError.unsupportedCpuArch
        (((splitChar '-' triple)[0]?).getD "")) ∧
    (ParseError.unsupportedCpuArch
        (((splitChar '-' triple)[0]?).getD "")).message =
      "unsupported cpu arch " ++ (((splitChar '-' triple)[0]?).getD "") := by
  constructor
  · unfold TargetDetail.fromTriple
    rw [List.getElem?_eq_getElem (show 2 < (splitChar '-' triple).length by
      omega)]
    simp only [mkTargetDetail, hcpu]
  · rfl

/-- C5 witness at the concrete malformed-architecture triple
"foo-bar-baz". -/
theorem c5_unrecognized_arch_fatal_witness :
    TargetDetail.fromTriple "foo-bar-baz" =
      Except.error (ParseError.unsupportedCpuArch "foo") ∧
    (ParseError.unsupportedCpuArch "foo").message =
      "unsupported cpu arch foo" :=
  c5_unrecognized_arch_fatal "foo-bar-baz" (by decide) (by decide)

/-- C6: `NodePlatform.fromStr` never fails — the four recognized OS names
map to their variants ("windows" to `win32`), and every other string maps
to `unknown` carrying the string verbatim. -/
theorem c6_platform_fromStr_total :
    NodePlatform.fromStr "darwin" = NodePlatform.darwin ∧
    NodePlatform.fromStr "freebsd" = NodePlatform.freebsd ∧
    NodePlatform.fromStr "openbsd" = NodePlatform.openbsd ∧
    NodePlatform.fromStr "windows" = NodePlatform.win32 ∧
    ∀ s : String, s ≠ "darwin" → s ≠ "freebsd" → s ≠ "openbsd" →
      s ≠ "windows" → NodePlatform.fromStr s = NodePlatform.unknown s := by
  refine ⟨rfl, rfl, rfl, rfl, ?_⟩
  intro s h1 h2 h3 h4
  simp [NodePlatform.fromStr, h1, h2, h3, h4]

/-- C6 witness at the concrete unrecognized OS string "linux". -/
theorem c6_platform_fromStr_total_witness :
    NodePlatform.fromStr "linux" = NodePlatform.unknown "linux" :=
  c6_platform_fromStr_total.2.2.2.2 "linux" (by decide) (by decide)
    (by decide) (by decide)

/-- C7: the config stored for "aarch64-unknown-linux-gnu" has exactly the
claimed "&&"-joined setup string, and serializing it yields exactly the two
trimmed commands in order. -/
theorem c7_setup_split :
    (targetConfigGet "aarch64-unknown-linux-gnu").map
        (fun c => c.setup) =
      some (some "sudo apt-get update && sudo apt-get install g++-aarch64-linux-gnu gcc-aarch64-linux-gnu -y") ∧
    (targetConfigGet "aarch64-unknown-linux-gnu").map
        GithubWorkflowConfig.serializedSetup =
      some (some ["sudo apt-get update",
        "sudo apt-get install g++-aarch64-linux-gnu gcc-aarch64-linux-gnu -y"]) :=
  ⟨rfl, rfl⟩

/-- C8: `DEFAULT_TARGETS` is exactly the three stated triples, each of
which is in `AVAILABLE_TARGETS`, and the subset is strict (e.g.
"aarch64-apple-darwin" is available but not a default). -/
theorem c8_default_targets :
    DEFAULT_TARGETS = ["x86_64-apple-darwin", "x86_64-pc-windows-msvc",
      "x86_64-unknown-linux-gnu"] ∧
    DEFAULT_TARGETS.all (fun t => decide (t ∈ AVAILABLE_TARGETS)) = true ∧
    "aarch64-apple-darwin" ∈ AVAILABLE_TARGETS ∧
    "aarch64-apple-darwin" ∉ DEFAULT_TARGETS := by
  refine ⟨rfl, by decide, by decide, by decide⟩

/-- C9: every input with fewer than three dash-separated fields makes
`TargetDetail.fromTriple` abort with the out-of-bounds panic on index 2
(the error carries the index and the actual field count), before any
architecture or OS mapping: no `TargetDetail` is produced. -/
theorem c9_short_triple_index_panic (s : String)
    (h : (splitChar '-' s).length < 3) :
    TargetDetail.fromTriple s =
      Except.error (ParseError.indexOutOfBounds 2
        (splitChar '-' s).length) := by
  unfold TargetDetail.fromTriple
  rw [List.getElem?_eq_none (by omega)]

/-- C9 witness at the concrete two-field input "a-b". -/
theorem c9_short_triple_index_panic_witness :
    TargetDetail.fromTriple "a-b" =
      Except.error (ParseError.indexOutOfBounds 2 2) :=
  c9_short_triple_index_panic "a-b" (by decide)

/-- C10: `TargetDetail.fromTriple` depends only on dash-separated fields
0, 2 and 3 — two inputs with at least four fields that agree on those
fields (whatever their vendor field or fields past index 3) parse to
identical results. -/
theorem c10_vendor_irrelevant (s t : String)
    (_hs : 4 ≤ (splitChar '-' s).length)
    (ht : 4 ≤ (splitChar '-' t).length)
    (h0 : (splitChar '-' s)[0]? = (splitChar '-' t)[0]?)
    (h2 : (splitChar '-' s)[2]? = (splitChar '-' t)[2]?)
    (h3 : (splitChar '-' s)[3]? = (splitChar '-' t)[3]?) :
    TargetDetail.fromTriple s = TargetDetail.fromTriple t := by
  unfold TargetDetail.fromTriple
  rw [h0, h2, h3]
  rw [List.getElem?_eq_getElem (show 2 < (splitChar '-' t).length by omega)]

/-- C10 witness: two concrete inputs differing in the vendor field and in
an extra trailing field parse identically. -/
theorem c10_vendor_irrelevant_witness :
    TargetDetail.fromTriple "x86_64-apple-darwin-gnu" =
      TargetDetail.fromTriple "x86_64-pc-darwin-gnu-extra" :=
  c10_vendor_irrelevant "x86_64-apple-darwin-gnu" "x86_64-pc-darwin-gnu-extra"
    (by decide) (by decide) (by decide) (by decide) (by decide)
